import Mathlib

/-!
Verification of the CLIP inference service (`hf-space-clip-service/app.py`).

The service is shallowly embedded: module-level globals become a `ServerState`
record, the startup hook and the request handlers become pure functions over
that record, and the external collaborators (the pretrained CLIP model, its
processor, and the PIL image decoder) are opaque function records supplied as
parameters, as the specification treats them as out-of-scope capabilities.
Floating-point vectors are idealised as lists of real numbers.
-/

namespace ClipService

/-! ## Vectors and L2 normalisation (app.py lines 153-156 and 204-207) -/

/-- Sum of squares of a float vector, the square of its Euclidean norm. -/
def sumSq (v : List ℝ) : ℝ := (v.map fun x => x * x).sum

/-- The L2 norm used by `tensor.norm(dim=-1)`: square root of the sum of squares. -/
noncomputable def l2norm (v : List ℝ) : ℝ := Real.sqrt (sumSq v)

/-- Elementwise division of a feature row by its own L2 norm, the effect of
`features / features.norm(dim=-1, keepdim=True)` on one row. -/
noncomputable def l2normalize (v : List ℝ) : List ℝ := v.map fun x => x / l2norm v

/-! ## Base64 decoding

Modelled from the Python standard library `base64.b64decode` in its default
lenient mode (app.py line 188 calls it on the request's image field):
characters outside the standard alphabet are discarded, data stops at the
first padding character, and the remaining count of data characters must
form complete quads once padding is accounted for. -/

/-- Value of one standard-alphabet base64 character, `none` for other characters. -/
def b64Value (c : Char) : Option Nat :=
  if 'A' ≤ c ∧ c ≤ 'Z' then some (c.toNat - 65)
  else if 'a' ≤ c ∧ c ≤ 'z' then some (c.toNat - 71)
  else if '0' ≤ c ∧ c ≤ '9' then some (c.toNat + 4)
  else if c = '+' then some 62
  else if c = '/' then some 63
  else none

/-- Decode a run of 6-bit values into bytes: full quads give three bytes,
a trailing triple gives two bytes, a trailing pair gives one byte. -/
def b64quads : List Nat → List Nat
  | a :: b :: c :: d :: rest =>
      (a * 4 + b / 16) :: ((b % 16) * 16 + c / 4) :: ((c % 4) * 64 + d) :: b64quads rest
  | [a, b, c] => [a * 4 + b / 16, (b % 16) * 16 + c / 4]
  | [a, b] => [a * 4 + b / 16]
  | _ => []

/-- `base64.b64decode` on a Python string: returns the decoded byte list or a
`binascii.Error` message. -/
def b64decode (s : String) : Except String (List Nat) :=
  let kept := s.toList.filter fun c => (b64Value c).isSome ∨ c = '='
  let data := (kept.takeWhile fun c => c ≠ '=').filterMap b64Value
  let pads := ((kept.dropWhile fun c => c ≠ '=').takeWhile fun c => c = '=').length
  if data.length % 4 = 0 then .ok (b64quads data)
  else if data.length % 4 = 1 then
    .error "Invalid base64-encoded string: number of data characters cannot be 1 more than a multiple of 4"
  else if data.length % 4 = 2 then
    if 2 ≤ pads then .ok (b64quads data) else .error "Incorrect padding"
  else
    if 1 ≤ pads then .ok (b64quads data) else .error "Incorrect padding"

/-! ## External collaborators -/

/-- A decoded image already coerced to three channels, the result of
`Image.open(io.BytesIO(bytes)).convert('RGB')`. Width, height and RGB pixel
values; opaque to the service beyond being passed to the processor. -/
structure RGBImage where
  width : Nat
  height : Nat
  pixels : List (Nat × Nat × Nat)

/-- The PIL library as the handlers use it: `openRGB` sniffs the byte format,
decodes, and converts to RGB, or fails with an error message. -/
structure PILLib where
  openRGB : List Nat → Except String RGBImage

/-- Opaque model-ready tensor batch produced by the CLIP processor
(token tensors for text, pixel tensors for images), already moved to the
compute device by `.to(device)`. -/
structure ModelInput where
  data : List (List ℝ)

/-- The CLIP processor handle: `procText` models
`processor(text=[...], return_tensors="pt", padding=True, truncation=True, max_length=77)`
and `procImages` models `processor(images=[...], return_tensors="pt")`. -/
structure ClipProcessor where
  procText : List String → ModelInput
  procImages : List RGBImage → ModelInput

/-- The CLIP model handle in evaluation mode: both feature functions return a
batch of raw feature rows, one row per batch element. -/
structure ClipModel where
  get_text_features : ModelInput → List (List ℝ)
  get_image_features : ModelInput → List (List ℝ)

/-! ## Process-wide state (app.py lines 43-46) -/

/-- The three module-level globals `model`, `processor`, `device`. -/
structure ServerState where
  model : Option ClipModel
  processor : Option ClipProcessor
  device : Option String

/-- All three globals start as `None` (app.py lines 44-46). -/
def initState : ServerState := ⟨none, none, none⟩

/-! ## Startup (app.py lines 68-96) -/

/-- Outcomes of the external steps taken inside `load_model`:
whether `torch.cuda.is_available()`, and the results of
`CLIPProcessor.from_pretrained` and `CLIPModel.from_pretrained(...).to(device)`
with `model.eval()`. -/
structure LoadEnv where
  cudaAvailable : Bool
  loadProcessor : Except String ClipProcessor
  loadModel : Except String ClipModel

/-- `device = "cuda" if torch.cuda.is_available() else "cpu"` (app.py line 79). -/
def pickDevice (cudaAvailable : Bool) : String :=
  if cudaAvailable then "cuda" else "cpu"

/-- The startup hook `load_model`: assigns the global `device`, then
`processor`, then `model`, in that order; any failure is re-raised (second
component carries the error) and the assignments already made are kept. -/
def load_model (env : LoadEnv) (st : ServerState) : ServerState × Option String :=
  let st1 : ServerState := { st with device := some (pickDevice env.cudaAvailable) }
  match env.loadProcessor with
  | .error e => (st1, some e)
  | .ok p =>
    let st2 : ServerState := { st1 with processor := some p }
    match env.loadModel with
    | .error e => (st2, some e)
    | .ok m => ({ st2 with model := some m }, none)

/-- States the process can be in: the initial state, and anything produced by
running the startup hook (successfully or not) from a reachable state. -/
inductive Reachable : ServerState → Prop
  | init : Reachable initState
  | load (env : LoadEnv) (st st' : ServerState) (e : Option String) :
      Reachable st → load_model env st = (st', e) → Reachable st'

/-! ## Request and response shapes (app.py lines 49-66) -/

/-- `TextEmbeddingRequest`: a single text string. -/
structure TextEmbeddingRequest where
  text : String

/-- `ImageEmbeddingRequest`: a base64-encoded image and a declared MIME type
(the Python default is "image/jpeg"). -/
structure ImageEmbeddingRequest where
  image : String
  mime_type : String

/-- `EmbeddingResponse`: the embedding vector and its reported dimensionality. -/
structure EmbeddingResponse where
  embedding : List ℝ
  dimensions : Nat

/-- `HealthResponse` as returned by the health endpoint. -/
structure HealthResponse where
  status : String
  model_loaded : Bool
  device : String
  model_name : String
  deriving DecidableEq

/-- Result of a handler: an OK payload, or an `HTTPException(status_code, detail)`
surfaced to the client. -/
inductive ApiResult (α : Type) where
  | ok : α → ApiResult α
  | httpError : Nat → String → ApiResult α

/-- A Python exception inside a handler body: either an `HTTPException`
carrying a status code and detail, or any other exception carrying a message. -/
inductive Exc where
  | http : Nat → String → Exc
  | py : String → Exc

/-! ## Health check (app.py lines 114-122) -/

/-- `health_check`: status "healthy" iff the `model` global is not `None`;
device falls back to "unknown" when the `device` global is falsy
(`None` or the empty string, by Python truthiness). -/
def health_check (st : ServerState) : HealthResponse :=
  { status := if st.model.isSome then "healthy" else "unhealthy"
    model_loaded := st.model.isSome
    device := match st.device with
      | some d => if d = "" then "unknown" else d
      | none => "unknown"
    model_name := "openai/clip-vit-base-patch32" }

/-! ## Text embedding handler (app.py lines 124-167) -/

/-- Body of the `try` block of `embed_text` (lines 136-163): preprocess the
singleton text batch, take text features, normalise each row, then index row 0
(`numpy()[0]`, an `IndexError` if the batch came back empty). -/
noncomputable def embed_text_body (m : ClipModel) (p : ClipProcessor)
    (req : TextEmbeddingRequest) : Except String EmbeddingResponse :=
  let inputs := p.procText [req.text]
  let feats := m.get_text_features inputs
  let normed := feats.map l2normalize
  match normed.head? with
  | some emb => .ok ⟨emb, emb.length⟩
  | none => .error "index 0 is out of bounds for axis 0 with size 0"

/-- The `embed_text` handler: 503 when `model` or `processor` is `None`
(lines 133-134), otherwise the body with any exception converted to a 500
response (lines 165-167). -/
noncomputable def embed_text (st : ServerState) (req : TextEmbeddingRequest) :
    ApiResult EmbeddingResponse :=
  match st.model, st.processor with
  | some m, some p =>
    match embed_text_body m p req with
    | .ok resp => .ok resp
    | .error e => .httpError 500 ("Embedding generation failed: " ++ e)
  | _, _ => .httpError 503 "Model not loaded"

/-! ## Image embedding handler (app.py lines 169-220) -/

/-- The inner decode block of `embed_image` (lines 187-192): base64-decode the
image field, then open and coerce to RGB; any exception in either step is
re-raised as `HTTPException(400, "Invalid image data: ...")`. -/
def decode_image (pil : PILLib) (base64_image : String) :
    Except Exc RGBImage :=
  match b64decode base64_image with
  | .error e => .error (.http 400 ("Invalid image data: " ++ e))
  | .ok image_bytes =>
    match pil.openRGB image_bytes with
    | .error e => .error (.http 400 ("Invalid image data: " ++ e))
    | .ok image => .ok image

/-- Body of the outer `try` block of `embed_image` (lines 182-214): decode,
preprocess the singleton image batch, take image features, normalise each row,
index row 0. -/
noncomputable def embed_image_body (pil : PILLib) (m : ClipModel) (p : ClipProcessor)
    (req : ImageEmbeddingRequest) : Except Exc EmbeddingResponse :=
  match decode_image pil req.image with
  | .error exc => .error exc
  | .ok image =>
    let inputs := p.procImages [image]
    let feats := m.get_image_features inputs
    let normed := feats.map l2normalize
    match normed.head? with
    | some emb => .ok ⟨emb, emb.length⟩
    | none => .error (.py "index 0 is out of bounds for axis 0 with size 0")

/-- The `embed_image` handler: 503 when `model` or `processor` is `None`
(lines 179-180); an `HTTPException` escaping the body is re-raised unchanged
(lines 216-217), any other exception becomes a 500 response (lines 218-220). -/
noncomputable def embed_image (pil : PILLib) (st : ServerState) (req : ImageEmbeddingRequest) :
    ApiResult EmbeddingResponse :=
  match st.model, st.processor with
  | some m, some p =>
    match embed_image_body pil m p req with
    | .ok resp => .ok resp
    | .error (.http code detail) => .httpError code detail
    | .error (.py e) => .httpError 500 ("Embedding generation failed: " ++ e)
  | _, _ => .httpError 503 "Model not loaded"

/-! ## Facts about L2 normalisation -/

lemma sumSq_nonneg (v : List ℝ) : 0 ≤ sumSq v := by
  apply List.sum_nonneg
  intro x hx
  obtain ⟨y, _, rfl⟩ := List.mem_map.mp hx
  exact mul_self_nonneg y

lemma l2norm_nonneg (v : List ℝ) : 0 ≤ l2norm v := Real.sqrt_nonneg _

lemma sumSq_map_div (v : List ℝ) (c : ℝ) :
    sumSq (v.map fun x => x / c) = sumSq v / (c * c) := by
  induction v with
  | nil => simp [sumSq]
  | cons a t ih =>
    simp only [sumSq, List.map_cons, List.sum_cons] at ih ⊢
    rw [ih, div_mul_div_comm, add_div]

lemma sumSq_pos_of_l2norm_ne_zero (v : List ℝ) (h : l2norm v ≠ 0) : 0 < sumSq v := by
  rcases lt_or_eq_of_le (sumSq_nonneg v) with hpos | hzero
  · exact hpos
  · exact absurd (by rw [l2norm, ← hzero, Real.sqrt_zero]) h

lemma l2norm_l2normalize (v : List ℝ) (h : l2norm v ≠ 0) :
    l2norm (l2normalize v) = 1 := by
  have hS : 0 < sumSq v := sumSq_pos_of_l2norm_ne_zero v h
  have hsq : l2norm v * l2norm v = sumSq v := Real.mul_self_sqrt (le_of_lt hS)
  rw [l2norm, l2normalize, sumSq_map_div, hsq, div_self (ne_of_gt hS), Real.sqrt_one]

lemma l2normalize_length (v : List ℝ) : (l2normalize v).length = v.length := by
  simp [l2normalize]

lemma l2normalize_idem (v : List ℝ) (h : l2norm v ≠ 0) :
    l2normalize (l2normalize v) = l2normalize v := by
  conv_lhs => rw [l2normalize, l2norm_l2normalize v h]
  simp

/-! ## Concrete instances used to witness the theorems -/

/-- A concrete 512-dimensional unit feature row. -/
def unit512 : List ℝ := 1 :: List.replicate 511 0

lemma sumSq_unit512 : sumSq unit512 = 1 := by
  rw [sumSq, unit512, List.map_cons, List.map_replicate, List.sum_cons, List.sum_replicate]
  norm_num

lemma l2norm_unit512 : l2norm unit512 = 1 := by
  rw [l2norm, sumSq_unit512, Real.sqrt_one]

/-- A stub model-ready tensor. -/
def stubInput : ModelInput := ⟨[]⟩

/-- A concrete processor handle. -/
def constProc : ClipProcessor := ⟨fun _ => stubInput, fun _ => stubInput⟩

/-- A concrete model handle that always answers the batch `[unit512]`. -/
def constModel : ClipModel := ⟨fun _ => [unit512], fun _ => [unit512]⟩

/-- A concrete ready state holding the stub handles. -/
def readyState : ServerState := ⟨some constModel, some constProc, some "cpu"⟩

/-- A concrete empty RGB image value. -/
def emptyImage : RGBImage := ⟨0, 0, []⟩

/-- A PIL stand-in that decodes every byte sequence. -/
def okPil : PILLib := ⟨fun _ => .ok emptyImage⟩

/-- A PIL stand-in that rejects every byte sequence, as PIL does on bytes that
are not a recognisable image. -/
def errPil : PILLib := ⟨fun _ => .error "cannot identify image file"⟩

/-! ## Behavioural lemmas about the handlers -/

lemma embed_text_503 (st : ServerState) (rt : TextEmbeddingRequest)
    (h : st.model = none ∨ st.processor = none) :
    embed_text st rt = .httpError 503 "Model not loaded" := by
  obtain ⟨mo, pr, de⟩ := st
  cases mo with
  | none => rfl
  | some m =>
    cases pr with
    | none => rfl
    | some p => rcases h with h | h <;> simp at h

lemma embed_image_503 (pil : PILLib) (st : ServerState) (ri : ImageEmbeddingRequest)
    (h : st.model = none ∨ st.processor = none) :
    embed_image pil st ri = .httpError 503 "Model not loaded" := by
  obtain ⟨mo, pr, de⟩ := st
  cases mo with
  | none => rfl
  | some m =>
    cases pr with
    | none => rfl
    | some p => rcases h with h | h <;> simp at h

lemma embed_text_ok (st : ServerState) (m : ClipModel) (p : ClipProcessor)
    (req : TextEmbeddingRequest) (r : List ℝ)
    (hm : st.model = some m) (hp : st.processor = some p)
    (hr : (m.get_text_features (p.procText [req.text])).head? = some r) :
    embed_text st req = .ok ⟨l2normalize r, (l2normalize r).length⟩ := by
  obtain ⟨mo, pr, de⟩ := st
  simp only at hm hp
  subst hm; subst hp
  simp only [embed_text, embed_text_body, List.head?_map, hr, Option.map_some']

lemma decode_image_err (pil : PILLib) (s : String) (e : String)
    (h : b64decode s = .error e ∨
      ∃ bs, b64decode s = .ok bs ∧ pil.openRGB bs = .error e) :
    decode_image pil s = .error (.http 400 ("Invalid image data: " ++ e)) := by
  rcases h with h | ⟨bs, hbs, hopen⟩
  · simp only [decode_image, h]
  · simp only [decode_image, hbs, hopen]

lemma embed_image_400 (pil : PILLib) (st : ServerState) (m : ClipModel)
    (p : ClipProcessor) (req : ImageEmbeddingRequest) (e : String)
    (hm : st.model = some m) (hp : st.processor = some p)
    (hdec : decode_image pil req.image = .error (.http 400 ("Invalid image data: " ++ e))) :
    embed_image pil st req = .httpError 400 ("Invalid image data: " ++ e) := by
  obtain ⟨mo, pr, de⟩ := st
  simp only at hm hp
  subst hm; subst hp
  simp only [embed_image, embed_image_body, hdec]

lemma embed_image_ok (pil : PILLib) (st : ServerState) (m : ClipModel)
    (p : ClipProcessor) (req : ImageEmbeddingRequest) (img : RGBImage) (r : List ℝ)
    (hm : st.model = some m) (hp : st.processor = some p)
    (hdec : decode_image pil req.image = .ok img)
    (hr : (m.get_image_features (p.procImages [img])).head? = some r) :
    embed_image pil st req = .ok ⟨l2normalize r, (l2normalize r).length⟩ := by
  obtain ⟨mo, pr, de⟩ := st
  simp only at hm hp
  subst hm; subst hp
  simp only [embed_image, embed_image_body, hdec, List.head?_map, hr, Option.map_some']

lemma embed_image_body_image_only (pil : PILLib) (m : ClipModel) (p : ClipProcessor)
    (r1 r2 : ImageEmbeddingRequest) (h : r1.image = r2.image) :
    embed_image_body pil m p r1 = embed_image_body pil m p r2 := by
  unfold embed_image_body
  rw [h]

/-! ## The claims -/

/-- Claim C1: in a ready state, whenever the opaque CLIP model returns a raw
feature batch whose first row has length 512 and non-zero L2 norm, `embed_text`
answers that row divided by its own L2 norm — a vector of length exactly 512
whose L2 norm is within 1e-4 of 1.0 — and `embed_image` does likewise for any
decodable image input. -/
theorem embed_handlers_return_unit_512 :
    (∀ (st : ServerState) (m : ClipModel) (p : ClipProcessor)
        (req : TextEmbeddingRequest) (r : List ℝ),
        st.model = some m → st.processor = some p →
        (m.get_text_features (p.procText [req.text])).head? = some r →
        r.length = 512 → l2norm r ≠ 0 →
        embed_text st req = .ok ⟨l2normalize r, 512⟩ ∧
          (l2normalize r).length = 512 ∧ |l2norm (l2normalize r) - 1| ≤ 1 / 10000) ∧
    (∀ (pil : PILLib) (st : ServerState) (m : ClipModel) (p : ClipProcessor)
        (req : ImageEmbeddingRequest) (img : RGBImage) (r : List ℝ),
        st.model = some m → st.processor = some p →
        decode_image pil req.image = .ok img →
        (m.get_image_features (p.procImages [img])).head? = some r →
        r.length = 512 → l2norm r ≠ 0 →
        embed_image pil st req = .ok ⟨l2normalize r, 512⟩ ∧
          (l2normalize r).length = 512 ∧ |l2norm (l2normalize r) - 1| ≤ 1 / 10000) := by
  constructor
  · intro st m p req r hm hp hr hlen hnz
    have hL : (l2normalize r).length = 512 := by rw [l2normalize_length, hlen]
    refine ⟨?_, hL, ?_⟩
    · rw [embed_text_ok st m p req r hm hp hr, hL]
    · rw [l2norm_l2normalize r hnz]
      norm_num
  · intro pil st m p req img r hm hp hdec hr hlen hnz
    have hL : (l2normalize r).length = 512 := by rw [l2normalize_length, hlen]
    refine ⟨?_, hL, ?_⟩
    · rw [embed_image_ok pil st m p req img r hm hp hdec hr, hL]
    · rw [l2norm_l2normalize r hnz]
      norm_num

/-- Witness for C1 at a concrete state, model and request. -/
theorem embed_handlers_return_unit_512_witness :
    (readyState.model = some constModel ∧ readyState.processor = some constProc ∧
        (constModel.get_text_features (constProc.procText ["dog"])).head? = some unit512 ∧
        decode_image okPil "" = .ok emptyImage ∧
        (constModel.get_image_features (constProc.procImages [emptyImage])).head? = some unit512 ∧
        unit512.length = 512 ∧ l2norm unit512 ≠ 0) ∧
      (embed_text readyState ⟨"dog"⟩ = .ok ⟨l2normalize unit512, 512⟩ ∧
        (l2normalize unit512).length = 512 ∧
        |l2norm (l2normalize unit512) - 1| ≤ 1 / 10000) ∧
      (embed_image okPil readyState ⟨"", "image/jpeg"⟩ = .ok ⟨l2normalize unit512, 512⟩ ∧
        (l2normalize unit512).length = 512 ∧
        |l2norm (l2normalize unit512) - 1| ≤ 1 / 10000) := by
  have hlen : unit512.length = 512 := by
    rw [unit512, List.length_cons, List.length_replicate]
  have hnz : l2norm unit512 ≠ 0 := by rw [l2norm_unit512]; exact one_ne_zero
  refine ⟨⟨rfl, rfl, rfl, rfl, rfl, hlen, hnz⟩, ?_, ?_⟩
  · exact embed_handlers_return_unit_512.1 readyState constModel constProc ⟨"dog"⟩
      unit512 rfl rfl rfl hlen hnz
  · exact embed_handlers_return_unit_512.2 okPil readyState constModel constProc
      ⟨"", "image/jpeg"⟩ emptyImage unit512 rfl rfl rfl rfl hlen hnz

/-- Claim C2: in any state where the model handle or the processor handle is
`None`, both embedding handlers return the 503 "Model not loaded" condition,
and do so for every request and every decoder — no model invocation or
decoding takes place. -/
theorem not_ready_returns_503 :
    ∀ (pil : PILLib) (st : ServerState) (rt : TextEmbeddingRequest)
      (ri : ImageEmbeddingRequest),
      st.model = none ∨ st.processor = none →
      embed_text st rt = .httpError 503 "Model not loaded" ∧
        embed_image pil st ri = .httpError 503 "Model not loaded" := by
  intro pil st rt ri h
  exact ⟨embed_text_503 st rt h, embed_image_503 pil st ri h⟩

/-- Witness for C2 at the initial state. -/
theorem not_ready_returns_503_witness :
    (initState.model = none ∨ initState.processor = none) ∧
      (embed_text initState ⟨"hi"⟩ = .httpError 503 "Model not loaded" ∧
        embed_image okPil initState ⟨"", "image/jpeg"⟩ =
          .httpError 503 "Model not loaded") :=
  ⟨Or.inl rfl,
    not_ready_returns_503 okPil initState ⟨"hi"⟩ ⟨"", "image/jpeg"⟩ (Or.inl rfl)⟩

/-- Claim C3: in a ready state, any image request whose image field fails to
decode — the base64 decode fails, or it succeeds and the bytes are not a
decodable image — yields the 400 "Invalid image data" condition with the
original message; the outer failure handler re-raises it unchanged instead of
re-classifying it as 500, and the process does not crash. -/
theorem undecodable_image_returns_400 :
    ∀ (pil : PILLib) (st : ServerState) (m : ClipModel) (p : ClipProcessor)
      (req : ImageEmbeddingRequest) (e : String),
      st.model = some m → st.processor = some p →
      (b64decode req.image = .error e ∨
        ∃ bs, b64decode req.image = .ok bs ∧ pil.openRGB bs = .error e) →
      embed_image pil st req = .httpError 400 ("Invalid image data: " ++ e) := by
  intro pil st m p req e hm hp h
  exact embed_image_400 pil st m p req e hm hp (decode_image_err pil req.image e h)

/-- Witness for C3 on the malformed base64 string "a". -/
theorem undecodable_image_returns_400_witness :
    (readyState.model = some constModel ∧ readyState.processor = some constProc ∧
        b64decode "a" =
          .error "Invalid base64-encoded string: number of data characters cannot be 1 more than a multiple of 4") ∧
      embed_image okPil readyState ⟨"a", "image/jpeg"⟩ =
        .httpError 400 ("Invalid image data: " ++
          "Invalid base64-encoded string: number of data characters cannot be 1 more than a multiple of 4") :=
  ⟨⟨rfl, rfl, rfl⟩,
    undecodable_image_returns_400 okPil readyState constModel constProc
      ⟨"a", "image/jpeg"⟩
      "Invalid base64-encoded string: number of data characters cannot be 1 more than a multiple of 4"
      rfl rfl (Or.inl rfl)⟩

/-- Claim C4 counterexample: when the processor load succeeds but the model
load fails, `load_model` re-raises the error yet leaves the processor global
assigned — the processor field differs from its pre-load value, so the startup
transition is not atomic as the claim states. -/
theorem load_model_not_atomic :
    (load_model ⟨false, .ok constProc, .error "out of memory"⟩ initState).2 =
        some "out of memory" ∧
      (load_model ⟨false, .ok constProc, .error "out of memory"⟩ initState).1.processor ≠
        initState.processor := by
  constructor
  · rfl
  · simp [load_model, initState, pickDevice]

/-- Claim C4 (amended): if any step of the startup load fails, the error is
re-raised and the model handle is left exactly as it was before the load
began; starting from the initial state the process therefore never becomes
serving-ready — health reports "unhealthy" and both handlers answer 503 —
although the device and processor fields may retain partial assignments. -/
theorem load_model_failure_not_ready :
    ∀ (env : LoadEnv) (st stAfter : ServerState) (e : String) (pil : PILLib)
      (rt : TextEmbeddingRequest) (ri : ImageEmbeddingRequest),
      load_model env st = (stAfter, some e) →
      stAfter.model = st.model ∧
        (st = initState →
          (health_check stAfter).status = "unhealthy" ∧
            embed_text stAfter rt = .httpError 503 "Model not loaded" ∧
            embed_image pil stAfter ri = .httpError 503 "Model not loaded") := by
  intro env st stAfter e pil rt ri hload
  unfold load_model at hload
  have hmodel : stAfter.model = st.model := by
    cases hP : env.loadProcessor with
    | error e0 =>
      rw [hP] at hload
      injection hload with h1 h2
      rw [← h1]
    | ok p =>
      rw [hP] at hload
      cases hM : env.loadModel with
      | error e1 =>
        rw [hM] at hload
        injection hload with h1 h2
        rw [← h1]
      | ok m =>
        rw [hM] at hload
        injection hload with h1 h2
        exact absurd h2.symm (Option.some_ne_none e)
  refine ⟨hmodel, ?_⟩
  intro hinit
  have hnone : stAfter.model = none := by rw [hmodel, hinit]; rfl
  refine ⟨?_, embed_text_503 stAfter rt (Or.inl hnone),
    embed_image_503 pil stAfter ri (Or.inl hnone)⟩
  simp [health_check, hnone]

/-- Witness for C4 (amended) at a failing processor load from the initial
state. -/
theorem load_model_failure_not_ready_witness :
    load_model ⟨false, .error "network down", .ok constModel⟩ initState =
        (⟨none, none, some "cpu"⟩, some "network down") ∧
      ((⟨none, none, some "cpu"⟩ : ServerState).model = initState.model ∧
        (initState = initState →
          (health_check ⟨none, none, some "cpu"⟩).status = "unhealthy" ∧
            embed_text ⟨none, none, some "cpu"⟩ ⟨"hi"⟩ =
              .httpError 503 "Model not loaded" ∧
            embed_image okPil ⟨none, none, some "cpu"⟩ ⟨"", "image/jpeg"⟩ =
              .httpError 503 "Model not loaded")) :=
  ⟨rfl,
    load_model_failure_not_ready ⟨false, .error "network down", .ok constModel⟩
      initState ⟨none, none, some "cpu"⟩ "network down" okPil ⟨"hi"⟩
      ⟨"", "image/jpeg"⟩ rfl⟩

/-- Claim C5: `health_check` reports status "healthy" and `model_loaded = true`
exactly when the model handle is non-null; at the initial state it reports
"unhealthy" and `model_loaded = false`, and after any successful load it
reports "healthy" and `model_loaded = true`. -/
theorem health_check_reflects_readiness :
    ∀ (st stAfter : ServerState) (env : LoadEnv),
      (((health_check st).status = "healthy" ↔ st.model.isSome = true) ∧
          (health_check st).model_loaded = st.model.isSome) ∧
        ((health_check initState).model_loaded = false ∧
          (health_check initState).status = "unhealthy") ∧
        (load_model env initState = (stAfter, none) →
          (health_check stAfter).model_loaded = true ∧
            (health_check stAfter).status = "healthy") := by
  intro st stAfter env
  refine ⟨⟨?_, rfl⟩, ⟨rfl, rfl⟩, ?_⟩
  · cases h : st.model.isSome <;> simp [health_check, h]
  · intro hload
    unfold load_model at hload
    cases hP : env.loadProcessor with
    | error e0 =>
      rw [hP] at hload
      injection hload with h1 h2
      exact absurd h2 (Option.some_ne_none e0)
    | ok p =>
      rw [hP] at hload
      cases hM : env.loadModel with
      | error e1 =>
        rw [hM] at hload
        injection hload with h1 h2
        exact absurd h2 (Option.some_ne_none e1)
      | ok m =>
        rw [hM] at hload
        injection hload with h1 h2
        rw [← h1]
        exact ⟨rfl, rfl⟩

/-- Witness for C5 after a concrete successful load. -/
theorem health_check_reflects_readiness_witness :
    load_model ⟨false, .ok constProc, .ok constModel⟩ initState = (readyState, none) ∧
      ((health_check readyState).model_loaded = true ∧
        (health_check readyState).status = "healthy") :=
  ⟨rfl,
    (health_check_reflects_readiness readyState readyState
        ⟨false, .ok constProc, .ok constModel⟩).2.2 rfl⟩

/-- Claim C6: the declared MIME type is advisory only — two image requests with
the same image field produce the same `embed_image` outcome in every state,
for every decoder; the computation never reads the mime_type field. -/
theorem mime_type_advisory :
    ∀ (pil : PILLib) (st : ServerState) (r1 r2 : ImageEmbeddingRequest),
      r1.image = r2.image → embed_image pil st r1 = embed_image pil st r2 := by
  intro pil st r1 r2 h
  obtain ⟨mo, pr, de⟩ := st
  cases mo with
  | none => rfl
  | some m =>
    cases pr with
    | none => rfl
    | some p =>
      simp only [embed_image]
      rw [embed_image_body_image_only pil m p r1 r2 h]

/-- Witness for C6 on two requests that differ only in their MIME type. -/
theorem mime_type_advisory_witness :
    (ImageEmbeddingRequest.mk "" "image/jpeg").image =
        (ImageEmbeddingRequest.mk "" "image/png").image ∧
      embed_image okPil readyState ⟨"", "image/jpeg"⟩ =
        embed_image okPil readyState ⟨"", "image/png"⟩ :=
  ⟨rfl, mime_type_advisory okPil readyState ⟨"", "image/jpeg"⟩ ⟨"", "image/png"⟩ rfl⟩

/-- Claim C7: the normalisation step is idempotent on every vector of non-zero
L2 norm — normalising an already-normalised vector returns it unchanged. -/
theorem l2normalize_idempotent :
    ∀ v : List ℝ, l2norm v ≠ 0 → l2normalize (l2normalize v) = l2normalize v := by
  intro v h
  exact l2normalize_idem v h

/-- Witness for C7 on the vector (3, 4). -/
theorem l2normalize_idempotent_witness :
    l2norm [(3 : ℝ), 4] ≠ 0 ∧
      l2normalize (l2normalize [(3 : ℝ), 4]) = l2normalize [(3 : ℝ), 4] := by
  have h : l2norm [(3 : ℝ), 4] ≠ 0 := by
    rw [l2norm]
    refine ne_of_gt (Real.sqrt_pos.mpr ?_)
    norm_num [sumSq]
  exact ⟨h, l2normalize_idempotent [(3 : ℝ), 4] h⟩

/-- Claim C8: `embed_text` is deterministic — two requests carrying the same
text string evaluated in the same state produce identical results (the
embedded model is a fixed function of its input). -/
theorem embed_text_deterministic :
    ∀ (st : ServerState) (r1 r2 : TextEmbeddingRequest),
      r1.text = r2.text → embed_text st r1 = embed_text st r2 := by
  intro st r1 r2 h
  obtain ⟨t1⟩ := r1
  obtain ⟨t2⟩ := r2
  simp only at h
  rw [h]

/-- Witness for C8 on two identical requests in a ready state. -/
theorem embed_text_deterministic_witness :
    (TextEmbeddingRequest.mk "a photo of a dog").text =
        (TextEmbeddingRequest.mk "a photo of a dog").text ∧
      embed_text readyState ⟨"a photo of a dog"⟩ =
        embed_text readyState ⟨"a photo of a dog"⟩ :=
  ⟨rfl, embed_text_deterministic readyState ⟨"a photo of a dog"⟩
    ⟨"a photo of a dog"⟩ rfl⟩

/-- Claim C9: in every reachable state, a non-null model handle implies the
processor handle and the device identifier are also non-null — the startup
hook assigns device and processor strictly before the model. -/
theorem model_implies_full_triple :
    ∀ st : ServerState, Reachable st → st.model.isSome = true →
      st.processor.isSome = true ∧ st.device.isSome = true := by
  intro st hreach
  induction hreach with
  | init => intro h; simp [initState] at h
  | load env st0 st1 e _ hload ih =>
    intro hm
    unfold load_model at hload
    cases hP : env.loadProcessor with
    | error e0 =>
      rw [hP] at hload
      injection hload with h1 h2
      rw [← h1] at hm ⊢
      exact ⟨(ih hm).1, rfl⟩
    | ok p =>
      rw [hP] at hload
      cases hM : env.loadModel with
      | error e1 =>
        rw [hM] at hload
        injection hload with h1 h2
        rw [← h1]
        exact ⟨rfl, rfl⟩
      | ok m =>
        rw [hM] at hload
        injection hload with h1 h2
        rw [← h1]
        exact ⟨rfl, rfl⟩

/-- Witness for C9 at a reachable ready state. -/
theorem model_implies_full_triple_witness :
    (Reachable readyState ∧ readyState.model.isSome = true) ∧
      (readyState.processor.isSome = true ∧ readyState.device.isSome = true) :=
  have hr : Reachable readyState :=
    Reachable.load ⟨false, .ok constProc, .ok constModel⟩ initState readyState
      none Reachable.init rfl
  ⟨⟨hr, rfl⟩, model_implies_full_triple readyState hr rfl⟩

/-- Claim C10: in a ready state, the image request whose image field is the
empty string gets the 400 "Invalid image data" condition: the base64 decode
succeeds with empty bytes and opening the empty byte sequence as an image
fails — not a 500 condition and not a crash. -/
theorem empty_image_returns_400 :
    ∀ (pil : PILLib) (st : ServerState) (m : ClipModel) (p : ClipProcessor)
      (req : ImageEmbeddingRequest) (e : String),
      st.model = some m → st.processor = some p →
      req.image = "" → pil.openRGB [] = .error e →
      b64decode "" = .ok [] ∧
        embed_image pil st req = .httpError 400 ("Invalid image data: " ++ e) := by
  intro pil st m p req e hm hp himg hopen
  refine ⟨rfl, ?_⟩
  apply embed_image_400 pil st m p req e hm hp
  apply decode_image_err
  rw [himg]
  exact Or.inr ⟨[], rfl, hopen⟩

/-- Witness for C10 with a decoder that rejects the empty byte sequence, as
PIL does. -/
theorem empty_image_returns_400_witness :
    (readyState.model = some constModel ∧ readyState.processor = some constProc ∧
        errPil.openRGB [] = .error "cannot identify image file") ∧
      (b64decode "" = .ok [] ∧
        embed_image errPil readyState ⟨"", "image/jpeg"⟩ =
          .httpError 400 ("Invalid image data: " ++ "cannot identify image file")) :=
  ⟨⟨rfl, rfl, rfl⟩,
    empty_image_returns_400 errPil readyState constModel constProc
      ⟨"", "image/jpeg"⟩ "cannot identify image file" rfl rfl rfl rfl⟩

end ClipService
